import Mathlib

/-
Shallow embedding of the SDP-GUI client orchestrator (src/app.js).

The script wires DOM form controls to three JSON-over-HTTP POST endpoints
(/api/convert, /api/ask, /api/workflow).  We model the DOM-visible state as
an explicit record `DomState`, server behaviour as an environment `Env`
holding the response each endpoint would return, and the network activity of
one user invocation as a list of `NetEvent`s.  Each event handler of the
script becomes a pure function `DomState → Env → DomState × List NetEvent`.

JavaScript-specific conventions captured here:
  - `x || d` on a string falls back to `d` exactly when `x` is absent or the
    empty string (`jsOrS` / `jsOrStr`);
  - `res.ok` of fetch is true exactly for HTTP status 200..299 (`resOk`);
  - `res.json().catch(() => ({}))` turns an unparseable body into the empty
    object, modelled by `HttpResp.body = none`;
  - thrown `Error` values are modelled by `Except.error msg`; every handler
    catches them (try/catch), so handlers are total functions.
File-reader failures inside `toBase64` are not modelled: the environment
directly supplies the base64 string the reader would produce.
-/

namespace SDPGui

/-- A file chosen in the file input; only its name matters client-side
(the bytes reach the client code only as the base64 string supplied by
the file reader, which the environment provides). -/
structure SelFile where
  name : String
deriving DecidableEq

/-- Model configuration assembled by `currentModelConfig()` from the four
provider-related inputs. -/
structure ModelConfig where
  provider : String
  model : String
  base_url : String
  api_key : String
deriving DecidableEq

/-- The `matlab` object of a workflow response (`data.matlab`); fields may be
absent. -/
structure MatlabInfo where
  status : Option String := none
  run_id : Option String := none
deriving DecidableEq

/-- A parsed JSON response body.  Fields the three endpoints may carry;
`none` means the field is absent.  `ok` records the truthiness of the
`ok` field (absent counts as falsy, hence the `false` default).
`statsBlocks`/`statsLines` model `stats.blocks`/`stats.lines` of the convert
response; the client script never reads them. -/
structure RespData where
  ok : Bool := false
  error : Option String := none
  readable_text : Option String := none
  answer : Option String := none
  generated_script : Option String := none
  report : Option String := none
  matlab : Option MatlabInfo := none
  statsBlocks : Option Nat := none
  statsLines : Option Nat := none
deriving DecidableEq

/-- An HTTP response as seen by `postJson`: the status code and the parsed
JSON body (`none` when `res.json()` rejects, which the code turns into the
empty object). -/
structure HttpResp where
  status : Nat
  body : Option RespData
deriving DecidableEq

-- Decidable equality for the result type of `postJson`.
deriving instance DecidableEq for Except

/-- Environment of one invocation: the response each endpoint would give and
the base64 encoding `toBase64` yields for the selected file. -/
structure Env where
  convertResp : HttpResp := { status := 500, body := none }
  askResp : HttpResp := { status := 500, body := none }
  workflowResp : HttpResp := { status := 500, body := none }
  fileB64 : String := ""
deriving DecidableEq

/-- One POST request issued by the client, with the payload fields the code
puts in the JSON body.  `timeout_sec` is `none` when the JavaScript `Number`
conversion would yield NaN. -/
inductive NetEvent where
  | convert (filename : String) (content_b64 : String)
  | ask (prompt : String) (readable_text : String) (model_config : ModelConfig)
  | workflow (prompt : String) (readable_text : String) (model_config : ModelConfig)
      (matlab_cmd : String) (timeout_sec : Option Int)
deriving DecidableEq

/-- DOM-visible state of the page: the value of each input/output element the
script reads or writes, the disabled flags of the three buttons, and the status
line. -/
structure DomState where
  files : List SelFile := []
  fileName : String := ""
  prompt : String := ""
  readable : String := ""
  generatedScript : String := ""
  response : String := ""
  statusMsg : String := ""
  statusErr : Bool := false
  convertDisabled : Bool := false
  askDisabled : Bool := false
  workflowDisabled : Bool := false
  provider : String := "openai"
  modelName : String := ""
  baseUrl : String := ""
  apiKey : String := ""
  apiKeyDisabled : Bool := false
  apiKeyPlaceholder : String := ""
  matlabCmd : String := ""
  timeoutSec : String := ""
deriving DecidableEq

/-- Models one character of the JavaScript `toLowerCase()` string method:
ASCII upper-case letters map to lower case (sufficient for the file names
the extension check sees). -/
def jsLowerChar (c : Char) : Char :=
  if 'A' ≤ c ∧ c ≤ 'Z' then Char.ofNat (c.toNat + 32) else c

/-- Models the JavaScript `toLowerCase()` string method. -/
def jsToLower (s : String) : String :=
  ⟨s.data.map jsLowerChar⟩

/-- Models the JavaScript `endsWith(p)` string method. -/
def jsEndsWith (s p : String) : Bool :=
  p.data.isSuffixOf s.data

/-- Whitespace as stripped by the JavaScript `trim()` method (the ASCII
whitespace characters that can occur in these form fields). -/
def jsWhitespaceChar (c : Char) : Bool :=
  c = ' ' || c = '\t' || c = '\n' || c = '\r'

/-- Models the JavaScript `trim()` string method. -/
def jsTrim (s : String) : String :=
  ⟨((s.data.dropWhile jsWhitespaceChar).reverse.dropWhile jsWhitespaceChar).reverse⟩

/-- JavaScript `s || d` for a string `s`: the empty string is falsy. -/
def jsOrS (s dflt : String) : String :=
  if s = "" then dflt else s

/-- JavaScript `x || d` for a string-valued field `x` that may be absent. -/
def jsOrStr (x : Option String) (dflt : String) : String :=
  match x with
  | some s => jsOrS s dflt
  | none => dflt

/-- Models the JavaScript `Number(...)` conversion on the strings this form
produces: a whitespace-trimmed decimal integer literal converts to its value,
the empty string to 0, and anything unparseable to NaN, represented as
`none`. -/
def jsNumber (s : String) : Option Int :=
  if jsTrim s = "" then some 0 else (jsTrim s).toInt?

/-- Fetch `res.ok`: HTTP status in the 2xx range. -/
def resOk (r : HttpResp) : Bool :=
  decide (200 ≤ r.status ∧ r.status < 300)

/-- Value of `await res.json().catch(() => ({}))`. -/
def respData (r : HttpResp) : RespData :=
  r.body.getD {}

/-- Embedding of `postJson(url, payload)` (src/app.js lines 78-90): throws
`data.error || "Request failed (status)"` when the HTTP status is non-2xx or
the ok field of the payload is falsy or absent, and returns the payload
otherwise. -/
def postJson (r : HttpResp) : Except String RespData :=
  if resOk r = false ∨ (respData r).ok = false then
    Except.error (jsOrStr (respData r).error ("Request failed (" ++ toString r.status ++ ")"))
  else
    Except.ok (respData r)

/-- True when `postJson` would throw on this response. -/
def postFails (r : HttpResp) : Bool :=
  match postJson r with
  | Except.error _ => true
  | Except.ok _ => false

/-- Embedding of `setStatus(message, isError)`. -/
def setStatus (s : DomState) (message : String) (isError : Bool) : DomState :=
  { s with statusMsg := message, statusErr := isError }

/-- Embedding of `setBusy(isBusy)`: sets the disabled flag of all three
trigger buttons. -/
def setBusy (s : DomState) (isBusy : Bool) : DomState :=
  { s with convertDisabled := isBusy, askDisabled := isBusy,
           workflowDisabled := isBusy }

/-- Embedding of `currentModelConfig()`. -/
def currentModelConfig (s : DomState) : ModelConfig :=
  { provider := s.provider
    model := jsTrim s.modelName
    base_url := jsTrim s.baseUrl
    api_key := jsTrim s.apiKey }

/-- Embedding of `applyProviderDefaults()` (src/app.js lines 41-63).  Note
that on the ollama branch the API key is cleared unconditionally, while the
model name and base URL are only overwritten when empty or still equal to
the default of the other provider. -/
def applyProviderDefaults (s : DomState) : DomState :=
  if s.provider = "ollama" then
    let s1 := if jsTrim s.modelName = "" ∨ jsTrim s.modelName = "gpt-4o-mini" then
                { s with modelName := "mistral:7b-instruct" } else s
    let s2 := if jsTrim s1.baseUrl = "" ∨ jsTrim s1.baseUrl = "https://api.openai.com/v1" then
                { s1 with baseUrl := "http://localhost:11434" } else s1
    { s2 with apiKey := "", apiKeyDisabled := true,
              apiKeyPlaceholder := "Not required for local Ollama" }
  else
    let s1 := if jsTrim s.modelName = "" ∨ jsTrim s.modelName = "mistral:7b-instruct" then
                { s with modelName := "gpt-4o-mini" } else s
    let s2 := if jsTrim s1.baseUrl = "" ∨ jsTrim s1.baseUrl = "http://localhost:11434" then
                { s1 with baseUrl := "https://api.openai.com/v1" } else s1
    { s2 with apiKeyDisabled := false, apiKeyPlaceholder := "Paste API key" }

/-- A provider-select change event: the control takes the new value and the
change listener runs `applyProviderDefaults`. -/
def providerChange (s : DomState) (newProvider : String) : DomState :=
  applyProviderDefaults { s with provider := newProvider }

/-- Embedding of `convertIfNeeded(force)` (src/app.js lines 92-111).  Returns
the new state (or the thrown error message) together with the list of POST
requests issued.  The file-presence and extension checks come first; with
`force = false` a non-empty (after trim) readable text short-circuits before
any network activity. -/
def convertIfNeeded (force : Bool) (s : DomState) (env : Env) :
    Except String DomState × List NetEvent :=
  match s.files.head? with
  | none => (Except.error "Select a .slx file first.", [])
  | some file =>
    if jsEndsWith (jsToLower file.name) ".slx" = false then
      (Except.error "Only .slx files are supported.", [])
    else if force = false ∧ jsTrim s.readable ≠ "" then
      (Except.ok s, [])
    else
      match postJson env.convertResp with
      | Except.error e =>
          (Except.error e, [NetEvent.convert file.name env.fileB64])
      | Except.ok data =>
          (Except.ok { s with readable := jsOrStr data.readable_text "" },
           [NetEvent.convert file.name env.fileB64])

/-- Embedding of the `fileInput` change listener (src/app.js lines 113-116):
it replaces the file list and updates the displayed file name, and touches
nothing else - in particular it does not clear the cached readable text. -/
def fileChange (s : DomState) (newFiles : List SelFile) : DomState :=
  let s1 := { s with files := newFiles }
  match newFiles.head? with
  | some f => { s1 with fileName := f.name }
  | none => { s1 with fileName := "No .slx file selected" }

/-- Embedding of the `convertBtn` click handler (src/app.js lines 125-136). -/
def convertClick (s : DomState) (env : Env) : DomState × List NetEvent :=
  let s1 := setStatus (setBusy s true) "Converting .slx file..." false
  match convertIfNeeded true s1 env with
  | (Except.ok s2, tr) =>
      (setBusy (setStatus s2 "Conversion completed." false) false, tr)
  | (Except.error e, tr) =>
      (setBusy (setStatus s1 (jsOrS e "Conversion failed.") true) false, tr)

/-- Embedding of the `askBtn` click handler (src/app.js lines 138-164). -/
def askClick (s : DomState) (env : Env) : DomState × List NetEvent :=
  let promptText := jsTrim s.prompt
  if promptText = "" then
    (setStatus s "Enter a prompt before asking the model." true, [])
  else
    let s1 := setStatus (setBusy s true) "Preparing readable model data..." false
    match convertIfNeeded false s1 env with
    | (Except.error e, tr) =>
        (setBusy (setStatus s1 (jsOrS e "Model request failed.") true) false, tr)
    | (Except.ok s2, tr) =>
        let s3 := setStatus s2 "Querying model..." false
        let ev := NetEvent.ask promptText (jsTrim s3.readable) (currentModelConfig s3)
        match postJson env.askResp with
        | Except.error e =>
            (setBusy (setStatus s3 (jsOrS e "Model request failed.") true) false,
             tr ++ [ev])
        | Except.ok data =>
            (setBusy (setStatus { s3 with response := jsOrStr data.answer "" }
                        "Model response received." false) false,
             tr ++ [ev])

/-- Value of `data.matlab || {}` in the workflow handler. -/
def matlabOf (d : RespData) : MatlabInfo :=
  d.matlab.getD {}

/-- Embedding of the `workflowBtn` click handler (src/app.js lines 166-198). -/
def workflowClick (s : DomState) (env : Env) : DomState × List NetEvent :=
  let promptText := jsTrim s.prompt
  if promptText = "" then
    (setStatus s "Enter a prompt before running MATLAB workflow." true, [])
  else
    let s1 := setStatus (setBusy s true) "Preparing readable model data..." false
    match convertIfNeeded false s1 env with
    | (Except.error e, tr) =>
        (setBusy (setStatus s1 (jsOrS e "Workflow failed.") true) false, tr)
    | (Except.ok s2, tr) =>
        let s3 := setStatus s2 "Generating MATLAB script and executing in batch mode..." false
        let ev := NetEvent.workflow promptText (jsTrim s3.readable) (currentModelConfig s3)
                    (jsOrS (jsTrim s3.matlabCmd) "matlab")
                    (if s3.timeoutSec = "" then some 300 else jsNumber s3.timeoutSec)
        match postJson env.workflowResp with
        | Except.error e =>
            (setBusy (setStatus s3 (jsOrS e "Workflow failed.") true) false,
             tr ++ [ev])
        | Except.ok data =>
            let s4 := { s3 with generatedScript := jsOrStr data.generated_script "",
                                response := jsOrStr data.report "" }
            let runInfo := matlabOf data
            let state := if runInfo.status = some "success" then "completed" else "failed"
            (setBusy (setStatus s4
                        ("Workflow " ++ state ++ ". Run ID: " ++ jsOrStr runInfo.run_id "n/a")
                        false) false,
             tr ++ [ev])

/-- Whether a selected file is present whose name passes the extension
check of `convertIfNeeded`. -/
def fileSelectedSlx (s : DomState) : Bool :=
  match s.files.head? with
  | some f => jsEndsWith (jsToLower f.name) ".slx"
  | none => false

/-- Whether an event is a POST to the convert endpoint. -/
def isConvertEv : NetEvent → Bool
  | NetEvent.convert _ _ => true
  | _ => false

/-- Whether an event is a POST to the ask endpoint. -/
def isAskEv : NetEvent → Bool
  | NetEvent.ask _ _ _ => true
  | _ => false

/-- All three trigger buttons enabled (the Idle situation). -/
def allEnabled (s : DomState) : Bool :=
  !s.convertDisabled && !s.askDisabled && !s.workflowDisabled

end SDPGui



namespace SDPGui

-- Basic lemmas about the state helpers

@[simp] theorem setStatus_statusMsg (s : DomState) (m : String) (e : Bool) :
    (setStatus s m e).statusMsg = m := rfl

@[simp] theorem setStatus_statusErr (s : DomState) (m : String) (e : Bool) :
    (setStatus s m e).statusErr = e := rfl

@[simp] theorem setStatus_files (s : DomState) (m : String) (e : Bool) :
    (setStatus s m e).files = s.files := rfl

@[simp] theorem setStatus_readable (s : DomState) (m : String) (e : Bool) :
    (setStatus s m e).readable = s.readable := rfl

@[simp] theorem setStatus_response (s : DomState) (m : String) (e : Bool) :
    (setStatus s m e).response = s.response := rfl

@[simp] theorem setStatus_generatedScript (s : DomState) (m : String) (e : Bool) :
    (setStatus s m e).generatedScript = s.generatedScript := rfl

@[simp] theorem setStatus_prompt (s : DomState) (m : String) (e : Bool) :
    (setStatus s m e).prompt = s.prompt := rfl

@[simp] theorem setStatus_matlabCmd (s : DomState) (m : String) (e : Bool) :
    (setStatus s m e).matlabCmd = s.matlabCmd := rfl

@[simp] theorem setStatus_timeoutSec (s : DomState) (m : String) (e : Bool) :
    (setStatus s m e).timeoutSec = s.timeoutSec := rfl

@[simp] theorem setStatus_convertDisabled (s : DomState) (m : String) (e : Bool) :
    (setStatus s m e).convertDisabled = s.convertDisabled := rfl

@[simp] theorem setStatus_askDisabled (s : DomState) (m : String) (e : Bool) :
    (setStatus s m e).askDisabled = s.askDisabled := rfl

@[simp] theorem setStatus_workflowDisabled (s : DomState) (m : String) (e : Bool) :
    (setStatus s m e).workflowDisabled = s.workflowDisabled := rfl

@[simp] theorem setBusy_statusMsg (s : DomState) (b : Bool) :
    (setBusy s b).statusMsg = s.statusMsg := rfl

@[simp] theorem setBusy_statusErr (s : DomState) (b : Bool) :
    (setBusy s b).statusErr = s.statusErr := rfl

@[simp] theorem setBusy_files (s : DomState) (b : Bool) :
    (setBusy s b).files = s.files := rfl

@[simp] theorem setBusy_readable (s : DomState) (b : Bool) :
    (setBusy s b).readable = s.readable := rfl

@[simp] theorem setBusy_response (s : DomState) (b : Bool) :
    (setBusy s b).response = s.response := rfl

@[simp] theorem setBusy_generatedScript (s : DomState) (b : Bool) :
    (setBusy s b).generatedScript = s.generatedScript := rfl

@[simp] theorem setBusy_prompt (s : DomState) (b : Bool) :
    (setBusy s b).prompt = s.prompt := rfl

@[simp] theorem setBusy_matlabCmd (s : DomState) (b : Bool) :
    (setBusy s b).matlabCmd = s.matlabCmd := rfl

@[simp] theorem setBusy_timeoutSec (s : DomState) (b : Bool) :
    (setBusy s b).timeoutSec = s.timeoutSec := rfl

@[simp] theorem setBusy_convertDisabled (s : DomState) (b : Bool) :
    (setBusy s b).convertDisabled = b := rfl

@[simp] theorem setBusy_askDisabled (s : DomState) (b : Bool) :
    (setBusy s b).askDisabled = b := rfl

@[simp] theorem setBusy_workflowDisabled (s : DomState) (b : Bool) :
    (setBusy s b).workflowDisabled = b := rfl

@[simp] theorem currentModelConfig_setStatus (s : DomState) (m : String) (e : Bool) :
    currentModelConfig (setStatus s m e) = currentModelConfig s := rfl

@[simp] theorem currentModelConfig_setBusy (s : DomState) (b : Bool) :
    currentModelConfig (setBusy s b) = currentModelConfig s := rfl

@[simp] theorem fileSelectedSlx_setStatus (s : DomState) (m : String) (e : Bool) :
    fileSelectedSlx (setStatus s m e) = fileSelectedSlx s := rfl

@[simp] theorem fileSelectedSlx_setBusy (s : DomState) (b : Bool) :
    fileSelectedSlx (setBusy s b) = fileSelectedSlx s := rfl

@[simp] theorem allEnabled_setBusy_false (s : DomState) :
    allEnabled (setBusy s false) = true := rfl

-- Lemmas about postJson

theorem postFails_iff (r : HttpResp) :
    postFails r = true ↔ (resOk r = false ∨ (respData r).ok = false) := by
  unfold postFails postJson
  by_cases hcond : resOk r = false ∨ (respData r).ok = false
  · rw [if_pos hcond]
    simpa using hcond
  · rw [if_neg hcond]
    simpa using hcond

theorem postJson_of_fails (r : HttpResp) (h : postFails r = true) :
    postJson r = Except.error
      (jsOrStr (respData r).error ("Request failed (" ++ toString r.status ++ ")")) := by
  unfold postJson
  rw [if_pos ((postFails_iff r).mp h)]

theorem postJson_of_succeeds (r : HttpResp) (h : postFails r = false) :
    postJson r = Except.ok (respData r) := by
  have hc : ¬ (resOk r = false ∨ (respData r).ok = false) := by
    intro hcond
    rw [(postFails_iff r).mpr hcond] at h
    exact absurd h (by simp)
  unfold postJson
  rw [if_neg hc]

-- Lemmas about convertIfNeeded

theorem convertIfNeeded_noFile (force : Bool) (s : DomState) (env : Env)
    (h : s.files.head? = none) :
    convertIfNeeded force s env = (Except.error "Select a .slx file first.", []) := by
  unfold convertIfNeeded
  rw [h]

theorem convertIfNeeded_badExt (force : Bool) (s : DomState) (env : Env) (f : SelFile)
    (hf : s.files.head? = some f) (hext : jsEndsWith (jsToLower f.name) ".slx" = false) :
    convertIfNeeded force s env = (Except.error "Only .slx files are supported.", []) := by
  unfold convertIfNeeded
  rw [hf]
  simp [hext]

theorem convertIfNeeded_invalid (force : Bool) (s : DomState) (env : Env)
    (hbad : fileSelectedSlx s = false) :
    ∃ e, convertIfNeeded force s env = (Except.error e, []) := by
  unfold fileSelectedSlx at hbad
  rcases hh : s.files.head? with _ | f
  · exact ⟨_, convertIfNeeded_noFile force s env hh⟩
  · rw [hh] at hbad
    exact ⟨_, convertIfNeeded_badExt force s env f hh hbad⟩

theorem convertIfNeeded_cached (s : DomState) (env : Env)
    (hf : fileSelectedSlx s = true) (hc : jsTrim s.readable ≠ "") :
    convertIfNeeded false s env = (Except.ok s, []) := by
  unfold fileSelectedSlx at hf
  rcases hh : s.files.head? with _ | f
  · rw [hh] at hf
    simp at hf
  · rw [hh] at hf
    have hf2 : jsEndsWith (jsToLower f.name) ".slx" = true := hf
    unfold convertIfNeeded
    rw [hh]
    simp [hf2, hc]

theorem convertIfNeeded_cached_trace (force : Bool) (s : DomState) (env : Env)
    (hc : jsTrim s.readable ≠ "") (hforce : force = false) :
    (convertIfNeeded force s env).2 = [] := by
  subst hforce
  rcases hh : s.files.head? with _ | f
  · rw [convertIfNeeded_noFile false s env hh]
  · by_cases hext : jsEndsWith (jsToLower f.name) ".slx" = false
    · rw [convertIfNeeded_badExt false s env f hh hext]
    · rw [Bool.not_eq_false] at hext
      have hf : fileSelectedSlx s = true := by
        unfold fileSelectedSlx
        rw [hh]
        exact hext
      rw [convertIfNeeded_cached s env hf hc]

theorem convertIfNeeded_cached_state (s : DomState) (env : Env) (s2 : DomState)
    (tr : List NetEvent) (hc : jsTrim s.readable ≠ "")
    (h : convertIfNeeded false s env = (Except.ok s2, tr)) : s2 = s ∧ tr = [] := by
  rcases hh : s.files.head? with _ | f
  · rw [convertIfNeeded_noFile false s env hh] at h
    simp at h
  · by_cases hext : jsEndsWith (jsToLower f.name) ".slx" = false
    · rw [convertIfNeeded_badExt false s env f hh hext] at h
      simp at h
    · rw [Bool.not_eq_false] at hext
      have hf : fileSelectedSlx s = true := by
        unfold fileSelectedSlx
        rw [hh]
        exact hext
      rw [convertIfNeeded_cached s env hf hc] at h
      simp at h
      exact ⟨h.1.symm, h.2⟩

theorem convertIfNeeded_fresh_ok (force : Bool) (s : DomState) (env : Env) (f : SelFile)
    (hf : s.files.head? = some f) (hext : jsEndsWith (jsToLower f.name) ".slx" = true)
    (hfresh : force = true ∨ jsTrim s.readable = "")
    (hok : postFails env.convertResp = false) :
    convertIfNeeded force s env =
      (Except.ok { s with readable := jsOrStr (respData env.convertResp).readable_text "" },
       [NetEvent.convert f.name env.fileB64]) := by
  unfold convertIfNeeded
  rw [hf, postJson_of_succeeds env.convertResp hok]
  have hcond : ¬ (force = false ∧ jsTrim s.readable ≠ "") := by
    rcases hfresh with h1 | h1
    · intro hcontra
      rw [h1] at hcontra
      simp at hcontra
    · intro hcontra
      exact hcontra.2 h1
  simp [hext, hcond]

theorem convertIfNeeded_fresh_error (force : Bool) (s : DomState) (env : Env) (f : SelFile)
    (hf : s.files.head? = some f) (hext : jsEndsWith (jsToLower f.name) ".slx" = true)
    (hfresh : force = true ∨ jsTrim s.readable = "")
    (hfail : postFails env.convertResp = true) :
    convertIfNeeded force s env =
      (Except.error
        (jsOrStr (respData env.convertResp).error
          ("Request failed (" ++ toString env.convertResp.status ++ ")")),
       [NetEvent.convert f.name env.fileB64]) := by
  unfold convertIfNeeded
  rw [hf, postJson_of_fails env.convertResp hfail]
  have hcond : ¬ (force = false ∧ jsTrim s.readable ≠ "") := by
    rcases hfresh with h1 | h1
    · intro hcontra
      rw [h1] at hcontra
      simp at hcontra
    · intro hcontra
      exact hcontra.2 h1
  simp [hext, hcond]

theorem convertIfNeeded_ok_frame (force : Bool) (s : DomState) (env : Env)
    (s2 : DomState) (tr : List NetEvent)
    (h : convertIfNeeded force s env = (Except.ok s2, tr)) :
    s2.response = s.response ∧ s2.generatedScript = s.generatedScript ∧
    s2.prompt = s.prompt ∧ s2.files = s.files ∧ s2.statusMsg = s.statusMsg ∧
    s2.statusErr = s.statusErr ∧ s2.matlabCmd = s.matlabCmd ∧
    s2.timeoutSec = s.timeoutSec ∧ currentModelConfig s2 = currentModelConfig s := by
  rcases hh : s.files.head? with _ | f
  · rw [convertIfNeeded_noFile force s env hh] at h
    simp at h
  · by_cases hext : jsEndsWith (jsToLower f.name) ".slx" = false
    · rw [convertIfNeeded_badExt force s env f hh hext] at h
      simp at h
    · rw [Bool.not_eq_false] at hext
      have hf : fileSelectedSlx s = true := by
        unfold fileSelectedSlx
        rw [hh]
        exact hext
      by_cases hcached : force = false ∧ jsTrim s.readable ≠ ""
      · have heq : convertIfNeeded force s env = (Except.ok s, []) := by
          rcases hcached with ⟨hc1, hc2⟩
          subst hc1
          exact convertIfNeeded_cached s env hf hc2
        rw [heq] at h
        injection h with h1 h2
        injection h1 with h1
        subst h1
        exact ⟨rfl, rfl, rfl, rfl, rfl, rfl, rfl, rfl, rfl⟩
      · have hfresh : force = true ∨ jsTrim s.readable = "" := by
          by_cases hft : force = true
          · exact Or.inl hft
          · right
            rw [Bool.not_eq_true] at hft
            by_contra hne
            exact hcached ⟨hft, hne⟩
        by_cases hpost : postFails env.convertResp = true
        · rw [convertIfNeeded_fresh_error force s env f hh hext hfresh hpost] at h
          simp at h
        · rw [Bool.not_eq_true] at hpost
          rw [convertIfNeeded_fresh_ok force s env f hh hext hfresh hpost] at h
          injection h with h1 h2
          injection h1 with h1
          subst h1
          exact ⟨rfl, rfl, rfl, rfl, rfl, rfl, rfl, rfl, rfl⟩

-- Unfolding lemmas for the click handlers

theorem convertClick_error (s : DomState) (env : Env) (e : String) (tr : List NetEvent)
    (h : convertIfNeeded true (setStatus (setBusy s true) "Converting .slx file..." false) env
         = (Except.error e, tr)) :
    convertClick s env =
      (setBusy (setStatus (setStatus (setBusy s true) "Converting .slx file..." false)
         (jsOrS e "Conversion failed.") true) false, tr) := by
  simp only [convertClick]
  rw [h]

theorem convertClick_ok (s : DomState) (env : Env) (s2 : DomState) (tr : List NetEvent)
    (h : convertIfNeeded true (setStatus (setBusy s true) "Converting .slx file..." false) env
         = (Except.ok s2, tr)) :
    convertClick s env = (setBusy (setStatus s2 "Conversion completed." false) false, tr) := by
  simp only [convertClick]
  rw [h]

theorem askClick_emptyPrompt (s : DomState) (env : Env) (h : jsTrim s.prompt = "") :
    askClick s env = (setStatus s "Enter a prompt before asking the model." true, []) := by
  simp only [askClick]
  rw [if_pos h]

theorem askClick_convertError (s : DomState) (env : Env) (e : String) (tr : List NetEvent)
    (hp : jsTrim s.prompt ≠ "")
    (h : convertIfNeeded false (setStatus (setBusy s true) "Preparing readable model data..." false) env
         = (Except.error e, tr)) :
    askClick s env =
      (setBusy (setStatus (setStatus (setBusy s true) "Preparing readable model data..." false)
         (jsOrS e "Model request failed.") true) false, tr) := by
  simp only [askClick]
  rw [if_neg hp, h]

theorem askClick_convertOk (s : DomState) (env : Env) (s2 : DomState) (tr : List NetEvent)
    (hp : jsTrim s.prompt ≠ "")
    (h : convertIfNeeded false (setStatus (setBusy s true) "Preparing readable model data..." false) env
         = (Except.ok s2, tr)) :
    askClick s env =
      (match postJson env.askResp with
       | Except.error e =>
           (setBusy (setStatus (setStatus s2 "Querying model..." false)
              (jsOrS e "Model request failed.") true) false,
            tr ++ [NetEvent.ask (jsTrim s.prompt) (jsTrim s2.readable) (currentModelConfig s2)])
       | Except.ok data =>
           (setBusy (setStatus { setStatus s2 "Querying model..." false with
                response := jsOrStr data.answer "" } "Model response received." false) false,
            tr ++ [NetEvent.ask (jsTrim s.prompt) (jsTrim s2.readable) (currentModelConfig s2)])) := by
  simp only [askClick]
  rw [if_neg hp, h]
  rfl

theorem workflowClick_emptyPrompt (s : DomState) (env : Env) (h : jsTrim s.prompt = "") :
    workflowClick s env =
      (setStatus s "Enter a prompt before running MATLAB workflow." true, []) := by
  simp only [workflowClick]
  rw [if_pos h]

theorem workflowClick_convertError (s : DomState) (env : Env) (e : String) (tr : List NetEvent)
    (hp : jsTrim s.prompt ≠ "")
    (h : convertIfNeeded false (setStatus (setBusy s true) "Preparing readable model data..." false) env
         = (Except.error e, tr)) :
    workflowClick s env =
      (setBusy (setStatus (setStatus (setBusy s true) "Preparing readable model data..." false)
         (jsOrS e "Workflow failed.") true) false, tr) := by
  simp only [workflowClick]
  rw [if_neg hp, h]

theorem workflowClick_convertOk (s : DomState) (env : Env) (s2 : DomState) (tr : List NetEvent)
    (hp : jsTrim s.prompt ≠ "")
    (h : convertIfNeeded false (setStatus (setBusy s true) "Preparing readable model data..." false) env
         = (Except.ok s2, tr)) :
    workflowClick s env =
      (match postJson env.workflowResp with
       | Except.error e =>
           (setBusy (setStatus
              (setStatus s2 "Generating MATLAB script and executing in batch mode..." false)
              (jsOrS e "Workflow failed.") true) false,
            tr ++ [NetEvent.workflow (jsTrim s.prompt) (jsTrim s2.readable)
                     (currentModelConfig s2) (jsOrS (jsTrim s2.matlabCmd) "matlab")
                     (if s2.timeoutSec = "" then some 300 else jsNumber s2.timeoutSec)])
       | Except.ok data =>
           (setBusy (setStatus { setStatus s2
                  "Generating MATLAB script and executing in batch mode..." false with
                generatedScript := jsOrStr data.generated_script "",
                response := jsOrStr data.report "" }
              ("Workflow " ++
                 (if (matlabOf data).status = some "success" then "completed" else "failed") ++
                 ". Run ID: " ++ jsOrStr (matlabOf data).run_id "n/a") false) false,
            tr ++ [NetEvent.workflow (jsTrim s.prompt) (jsTrim s2.readable)
                     (currentModelConfig s2) (jsOrS (jsTrim s2.matlabCmd) "matlab")
                     (if s2.timeoutSec = "" then some 300 else jsNumber s2.timeoutSec)])) := by
  simp only [workflowClick]
  rw [if_neg hp, h]
  rfl

-- Lemmas about applyProviderDefaults

theorem applyProviderDefaults_ollama (s : DomState) (hp : s.provider = "ollama") :
    applyProviderDefaults s =
      { s with
        modelName := if jsTrim s.modelName = "" ∨ jsTrim s.modelName = "gpt-4o-mini"
                     then "mistral:7b-instruct" else s.modelName,
        baseUrl := if jsTrim s.baseUrl = "" ∨ jsTrim s.baseUrl = "https://api.openai.com/v1"
                   then "http://localhost:11434" else s.baseUrl,
        apiKey := "", apiKeyDisabled := true,
        apiKeyPlaceholder := "Not required for local Ollama" } := by
  unfold applyProviderDefaults
  rw [if_pos hp]
  by_cases h1 : jsTrim s.modelName = "" ∨ jsTrim s.modelName = "gpt-4o-mini" <;>
    by_cases h2 : jsTrim s.baseUrl = "" ∨ jsTrim s.baseUrl = "https://api.openai.com/v1" <;>
    simp [h1, h2]

theorem applyProviderDefaults_openai (s : DomState) (hp : ¬ s.provider = "ollama") :
    applyProviderDefaults s =
      { s with
        modelName := if jsTrim s.modelName = "" ∨ jsTrim s.modelName = "mistral:7b-instruct"
                     then "gpt-4o-mini" else s.modelName,
        baseUrl := if jsTrim s.baseUrl = "" ∨ jsTrim s.baseUrl = "http://localhost:11434"
                   then "https://api.openai.com/v1" else s.baseUrl,
        apiKeyDisabled := false, apiKeyPlaceholder := "Paste API key" } := by
  unfold applyProviderDefaults
  rw [if_neg hp]
  by_cases h1 : jsTrim s.modelName = "" ∨ jsTrim s.modelName = "mistral:7b-instruct" <;>
    by_cases h2 : jsTrim s.baseUrl = "" ∨ jsTrim s.baseUrl = "http://localhost:11434" <;>
    simp [h1, h2]

-- Claim C1

/-- C1, amended: for every server response to one of the three POST
operations, the operation fails exactly when the HTTP status is non-2xx or
the ok field of the payload is absent or falsy; on such a failure a carried
NON-EMPTY `error` field is surfaced verbatim as the failure message, while
an absent or empty `error` field yields the generic message
"Request failed (status)". -/
theorem C1_response_failure_contract (r : HttpResp) :
    ((∃ e, postJson r = Except.error e) ↔
      (¬ (200 ≤ r.status ∧ r.status < 300) ∨ (respData r).ok = false))
  ∧ (∀ e, (respData r).error = some e → e ≠ "" →
      postFails r = true → postJson r = Except.error e)
  ∧ (((respData r).error = none ∨ (respData r).error = some "") →
      postFails r = true →
      postJson r = Except.error ("Request failed (" ++ toString r.status ++ ")")) := by
  refine ⟨⟨?_, ?_⟩, ?_, ?_⟩
  · rintro ⟨e, he⟩
    have hfail : postFails r = true := by
      unfold postFails
      rw [he]
    rcases (postFails_iff r).mp hfail with h2 | h2
    · left
      unfold resOk at h2
      exact of_decide_eq_false h2
    · right
      exact h2
  · intro h
    have hcond : resOk r = false ∨ (respData r).ok = false := by
      rcases h with h | h
      · left
        unfold resOk
        exact decide_eq_false h
      · right
        exact h
    exact ⟨_, postJson_of_fails r ((postFails_iff r).mpr hcond)⟩
  · intro e he hne hfail
    rw [postJson_of_fails r hfail, he]
    simp [jsOrStr, jsOrS, hne]
  · intro herr hfail
    rw [postJson_of_fails r hfail]
    rcases herr with h | h <;> rw [h] <;> simp [jsOrStr, jsOrS]

/-- C1 counterexample: a payload that carries an `error` field holding the
empty string is not surfaced verbatim; the generic failure message is shown
instead, refuting the claim that a carried `error` field is always surfaced
verbatim. -/
theorem C1_empty_error_counterexample :
    (respData ⟨200, some { ok := false, error := some "" }⟩).error = some ""
  ∧ postJson ⟨200, some { ok := false, error := some "" }⟩ =
      Except.error "Request failed (200)"
  ∧ "Request failed (200)" ≠ "" := by
  refine ⟨rfl, by decide, by decide⟩

/-- C1 witness: HTTP 200 with ok false and a non-empty error "bad format"
surfaces "bad format" verbatim. -/
theorem C1_verbatim_error_witness :
    postJson ⟨200, some { ok := false, error := some "bad format" }⟩ =
      Except.error "bad format" :=
  (C1_response_failure_contract ⟨200, some { ok := false, error := some "bad format" }⟩).2.1
    "bad format" (by decide) (by decide) (by decide)

-- Claim C4

/-- Concrete state for the C4 counterexample: the user has edited the API
key field while on the openai-compatible provider. -/
def c4State : DomState :=
  { provider := "openai", modelName := "gpt-4o-mini",
    baseUrl := "https://api.openai.com/v1", apiKey := "sk-user-edited" }

/-- C4 counterexample: switching to ollama-compatible clears a user-edited
API key ("sk-user-edited" is neither empty nor any provider default), so the
switch does NOT preserve every user-edited ModelConfig field. -/
theorem C4_cleared_key_counterexample :
    c4State.apiKey = "sk-user-edited" ∧ "sk-user-edited" ≠ "" ∧
    (providerChange c4State "ollama").apiKey = "" := by
  refine ⟨rfl, by decide, by decide⟩

/-- C4, amended: switching the provider overwrites the model name and base
URL only when they are empty or still hold the default of the other provider,
preserving user edits to those two fields; the API key however is cleared
unconditionally when switching to ollama-compatible, and preserved when
switching to openai-compatible. -/
theorem C4_provider_switch_fields (s : DomState) :
    ((jsTrim s.modelName = "" ∨ jsTrim s.modelName = "gpt-4o-mini") →
       (providerChange s "ollama").modelName = "mistral:7b-instruct")
  ∧ (jsTrim s.modelName ≠ "" → jsTrim s.modelName ≠ "gpt-4o-mini" →
       (providerChange s "ollama").modelName = s.modelName)
  ∧ ((jsTrim s.baseUrl = "" ∨ jsTrim s.baseUrl = "https://api.openai.com/v1") →
       (providerChange s "ollama").baseUrl = "http://localhost:11434")
  ∧ (jsTrim s.baseUrl ≠ "" → jsTrim s.baseUrl ≠ "https://api.openai.com/v1" →
       (providerChange s "ollama").baseUrl = s.baseUrl)
  ∧ (providerChange s "ollama").apiKey = ""
  ∧ ((jsTrim s.modelName = "" ∨ jsTrim s.modelName = "mistral:7b-instruct") →
       (providerChange s "openai").modelName = "gpt-4o-mini")
  ∧ (jsTrim s.modelName ≠ "" → jsTrim s.modelName ≠ "mistral:7b-instruct" →
       (providerChange s "openai").modelName = s.modelName)
  ∧ ((jsTrim s.baseUrl = "" ∨ jsTrim s.baseUrl = "http://localhost:11434") →
       (providerChange s "openai").baseUrl = "https://api.openai.com/v1")
  ∧ (jsTrim s.baseUrl ≠ "" → jsTrim s.baseUrl ≠ "http://localhost:11434" →
       (providerChange s "openai").baseUrl = s.baseUrl)
  ∧ (providerChange s "openai").apiKey = s.apiKey := by
  have hol := applyProviderDefaults_ollama { s with provider := "ollama" } rfl
  have hop := applyProviderDefaults_openai { s with provider := "openai" }
    (show ¬ ("openai" : String) = "ollama" by decide)
  unfold providerChange
  rw [hol, hop]
  refine ⟨?_, ?_, ?_, ?_, ?_, ?_, ?_, ?_, ?_, ?_⟩
  · intro h1
    simp [h1]
  · intro h1 h2
    simp [h1, h2]
  · intro h1
    simp [h1]
  · intro h1 h2
    simp [h1, h2]
  · simp
  · intro h1
    simp [h1]
  · intro h1 h2
    simp [h1, h2]
  · intro h1
    simp [h1]
  · intro h1 h2
    simp [h1, h2]
  · simp

/-- C4 witness: with the model field still holding the openai default
"gpt-4o-mini", switching to ollama-compatible rewrites it to
"mistral:7b-instruct"; with a user-edited model name "my-custom-model" the
switch preserves it. -/
theorem C4_provider_switch_witness :
    (providerChange { modelName := "gpt-4o-mini" } "ollama").modelName =
      "mistral:7b-instruct"
  ∧ (providerChange { modelName := "my-custom-model" } "ollama").modelName =
      "my-custom-model" :=
  ⟨(C4_provider_switch_fields { modelName := "gpt-4o-mini" }).1 (by right; decide),
   (C4_provider_switch_fields { modelName := "my-custom-model" }).2.1
     (by decide) (by decide)⟩

-- Claim C3

/-- C3: every ValidationError - no file selected, filename not ending in
`.slx` (matched case-insensitively), or empty prompt for Ask/RunWorkflow -
is reported immediately as an error status and causes no network request to
be issued by that invocation. -/
theorem C3_validation_no_network (s : DomState) (env : Env) :
    (fileSelectedSlx s = false →
       (convertClick s env).1.statusErr = true ∧ (convertClick s env).2 = [])
  ∧ (jsTrim s.prompt = "" →
       (askClick s env).1.statusErr = true ∧ (askClick s env).2 = [])
  ∧ (jsTrim s.prompt = "" →
       (workflowClick s env).1.statusErr = true ∧ (workflowClick s env).2 = [])
  ∧ (fileSelectedSlx s = false →
       (askClick s env).1.statusErr = true ∧ (askClick s env).2 = [])
  ∧ (fileSelectedSlx s = false →
       (workflowClick s env).1.statusErr = true ∧ (workflowClick s env).2 = []) := by
  refine ⟨?_, ?_, ?_, ?_, ?_⟩
  · intro hbad
    obtain ⟨e, hcin⟩ := convertIfNeeded_invalid true
      (setStatus (setBusy s true) "Converting .slx file..." false) env hbad
    rw [convertClick_error s env e [] hcin]
    simp
  · intro hp
    rw [askClick_emptyPrompt s env hp]
    simp
  · intro hp
    rw [workflowClick_emptyPrompt s env hp]
    simp
  · intro hbad
    by_cases hp : jsTrim s.prompt = ""
    · rw [askClick_emptyPrompt s env hp]
      simp
    · obtain ⟨e, hcin⟩ := convertIfNeeded_invalid false
        (setStatus (setBusy s true) "Preparing readable model data..." false) env hbad
      rw [askClick_convertError s env e [] hp hcin]
      simp
  · intro hbad
    by_cases hp : jsTrim s.prompt = ""
    · rw [workflowClick_emptyPrompt s env hp]
      simp
    · obtain ⟨e, hcin⟩ := convertIfNeeded_invalid false
        (setStatus (setBusy s true) "Preparing readable model data..." false) env hbad
      rw [workflowClick_convertError s env e [] hp hcin]
      simp

/-- C3 witness: with no file selected and an empty prompt, all three
handlers end with an error status and an empty network trace. -/
theorem C3_validation_no_network_witness :
    ((convertClick {} {}).1.statusErr = true ∧ (convertClick {} {}).2 = [])
  ∧ ((askClick {} {}).1.statusErr = true ∧ (askClick {} {}).2 = [])
  ∧ ((workflowClick {} {}).1.statusErr = true ∧ (workflowClick {} {}).2 = []) :=
  ⟨(C3_validation_no_network {} {}).1 (by decide),
   (C3_validation_no_network {} {}).2.1 (by decide),
   (C3_validation_no_network {} {}).2.2.1 (by decide)⟩

-- Claim C10

/-- C10: a cached readable text alone does not let Ask or RunWorkflow
proceed: with readable text cached but no currently selected file passing
the `.slx` check, both invocations fail with an error status and issue no
network call, because the file-presence and extension checks run before the
cache-reuse check. -/
theorem C10_cache_requires_valid_file (s : DomState) (env : Env)
    (hc : jsTrim s.readable ≠ "") (hbad : fileSelectedSlx s = false) :
    ((askClick s env).1.statusErr = true ∧ (askClick s env).2 = [])
  ∧ ((workflowClick s env).1.statusErr = true ∧ (workflowClick s env).2 = []) := by
  constructor
  · by_cases hp : jsTrim s.prompt = ""
    · rw [askClick_emptyPrompt s env hp]
      simp
    · obtain ⟨e, hcin⟩ := convertIfNeeded_invalid false
        (setStatus (setBusy s true) "Preparing readable model data..." false) env hbad
      rw [askClick_convertError s env e [] hp hcin]
      simp
  · by_cases hp : jsTrim s.prompt = ""
    · rw [workflowClick_emptyPrompt s env hp]
      simp
    · obtain ⟨e, hcin⟩ := convertIfNeeded_invalid false
        (setStatus (setBusy s true) "Preparing readable model data..." false) env hbad
      rw [workflowClick_convertError s env e [] hp hcin]
      simp

/-- State for the C10 witness: readable text cached but no file selected. -/
def c10State : DomState := { readable := "CACHED", prompt := "question" }

/-- C10 witness: with cached readable text and no selected file, Ask and
RunWorkflow both fail with an error status and issue no network call. -/
theorem C10_cache_requires_valid_file_witness :
    ((askClick c10State {}).1.statusErr = true ∧ (askClick c10State {}).2 = [])
  ∧ ((workflowClick c10State {}).1.statusErr = true ∧ (workflowClick c10State {}).2 = []) :=
  C10_cache_requires_valid_file c10State {} (by decide) (by decide)

-- Claim C2

/-- C2: with no cached readable text, a selected file passing the `.slx`
check, a non-empty prompt, and a convert endpoint that accepts the request,
Ask issues exactly one POST to /api/convert followed by exactly one POST to
/api/ask, in that order; and whenever readable text is already cached, Ask
issues no /api/convert call at all. -/
theorem C2_ask_call_sequence (s : DomState) (env : Env) :
    (jsTrim s.prompt ≠ "" → fileSelectedSlx s = true → jsTrim s.readable = "" →
       postFails env.convertResp = false →
       ∃ e1 e2, (askClick s env).2 = [e1, e2] ∧
         isConvertEv e1 = true ∧ isAskEv e2 = true)
  ∧ (jsTrim s.readable ≠ "" → ((askClick s env).2.filter isConvertEv) = []) := by
  constructor
  · intro hp hf hc hok
    unfold fileSelectedSlx at hf
    rcases hh : s.files.head? with _ | f
    · rw [hh] at hf
      simp at hf
    · rw [hh] at hf
      have hext : jsEndsWith (jsToLower f.name) ".slx" = true := hf
      have hfresh := convertIfNeeded_fresh_ok false
        (setStatus (setBusy s true) "Preparing readable model data..." false) env f hh hext
        (Or.inr hc) hok
      rw [askClick_convertOk s env _ _ hp hfresh]
      rcases hq : postJson env.askResp with e | d
      · exact ⟨_, _, rfl, rfl, rfl⟩
      · exact ⟨_, _, rfl, rfl, rfl⟩
  · intro hc
    by_cases hp : jsTrim s.prompt = ""
    · rw [askClick_emptyPrompt s env hp]
      simp
    · by_cases hf : fileSelectedSlx s = true
      · have hcached := convertIfNeeded_cached
          (setStatus (setBusy s true) "Preparing readable model data..." false) env hf hc
        rw [askClick_convertOk s env _ _ hp hcached]
        rcases hq : postJson env.askResp with e | d <;> simp [isConvertEv]
      · rw [Bool.not_eq_true] at hf
        obtain ⟨e, hcin⟩ := convertIfNeeded_invalid false
          (setStatus (setBusy s true) "Preparing readable model data..." false) env hf
        rw [askClick_convertError s env e [] hp hcin]
        simp

/-- State for the C2 witness: a valid file, a prompt, no cached text. -/
def c2State : DomState := { files := [⟨"model.slx"⟩], prompt := "explain" }

/-- Server environment for the C2 witness: both endpoints accept. -/
def c2Env : Env :=
  { convertResp := ⟨200, some { ok := true, readable_text := some "R" }⟩,
    askResp := ⟨200, some { ok := true, answer := some "A" }⟩,
    fileB64 := "QQ==" }

/-- C2 witness: on the concrete state and environment, Ask issues exactly a
convert call followed by an ask call. -/
theorem C2_ask_call_sequence_witness :
    ∃ e1 e2, (askClick c2State c2Env).2 = [e1, e2] ∧
      isConvertEv e1 = true ∧ isAskEv e2 = true :=
  (C2_ask_call_sequence c2State c2Env).1 (by decide) (by decide) (by decide) (by decide)

-- Claim C5

/-- State for the C5 counterexample and witness: a valid file selected. -/
def c5State : DomState := { files := [⟨"m.slx"⟩] }

/-- Environment for the C5 counterexample and witness: the convert endpoint
succeeds and reports stats blocks 3, lines 10. -/
def c5Env : Env :=
  { convertResp := ⟨200, some { ok := true, readable_text := some "R",
                                statsBlocks := some 3, statsLines := some 10 }⟩,
    fileB64 := "WA==" }

/-- C5 counterexample: on a successful Convert whose response includes
stats (blocks 3, lines 10), the readable text is cached but the status
message is the fixed text "Conversion completed."; the block and line
counts are never reported, refuting the claimed "3 blocks, 10 lines"
status. -/
theorem C5_stats_not_reported_counterexample :
    (respData c5Env.convertResp).statsBlocks = some 3
  ∧ (respData c5Env.convertResp).statsLines = some 10
  ∧ (convertClick c5State c5Env).1.readable = "R"
  ∧ (convertClick c5State c5Env).1.statusMsg = "Conversion completed."
  ∧ "Conversion completed." ≠ "3 blocks, 10 lines" := by
  refine ⟨rfl, rfl, by decide, by decide, by decide⟩

/-- C5, amended: on a successful Convert the returned readable text is
stored in the cache, and the status message is the fixed text
"Conversion completed." with the error flag clear; the stats fields of the
response are not reflected in the status message. -/
theorem C5_convert_success_status (s : DomState) (env : Env)
    (hf : fileSelectedSlx s = true) (hok : postFails env.convertResp = false) :
    (convertClick s env).1.readable =
      jsOrStr (respData env.convertResp).readable_text ""
  ∧ (convertClick s env).1.statusMsg = "Conversion completed."
  ∧ (convertClick s env).1.statusErr = false := by
  unfold fileSelectedSlx at hf
  rcases hh : s.files.head? with _ | f
  · rw [hh] at hf
    simp at hf
  · rw [hh] at hf
    have hext : jsEndsWith (jsToLower f.name) ".slx" = true := hf
    have hfresh := convertIfNeeded_fresh_ok true
      (setStatus (setBusy s true) "Converting .slx file..." false) env f hh hext
      (Or.inl rfl) hok
    rw [convertClick_ok s env _ _ hfresh]
    simp

/-- C5 witness: the amended claim evaluated on the concrete success
response of `c5Env` stores "R" and shows "Conversion completed.". -/
theorem C5_convert_success_witness :
    (convertClick c5State c5Env).1.readable =
      jsOrStr (respData c5Env.convertResp).readable_text ""
  ∧ (convertClick c5State c5Env).1.statusMsg = "Conversion completed."
  ∧ (convertClick c5State c5Env).1.statusErr = false :=
  C5_convert_success_status c5State c5Env (by decide) (by decide)

-- Claim C6

/-- C6: any invocation of Convert, Ask, or RunWorkflow that ends in a
failure (error status, covering validation, transport and application
errors) leaves the stored answer unchanged and, whenever a readable text
was cached (non-empty), leaves the cached readable text unchanged as well,
so the prior state remains available for retry. -/
theorem C6_failure_preserves_state (s : DomState) (env : Env) :
    ((convertClick s env).1.statusErr = true →
       (convertClick s env).1.response = s.response ∧
       (jsTrim s.readable ≠ "" → (convertClick s env).1.readable = s.readable))
  ∧ ((askClick s env).1.statusErr = true →
       (askClick s env).1.response = s.response ∧
       (jsTrim s.readable ≠ "" → (askClick s env).1.readable = s.readable))
  ∧ ((workflowClick s env).1.statusErr = true →
       (workflowClick s env).1.response = s.response ∧
       (jsTrim s.readable ≠ "" → (workflowClick s env).1.readable = s.readable)) := by
  refine ⟨?_, ?_, ?_⟩
  · rcases hcin : convertIfNeeded true
        (setStatus (setBusy s true) "Converting .slx file..." false) env with ⟨r, tr⟩
    rcases r with e | s2
    · rw [convertClick_error s env e tr hcin]
      intro _
      exact ⟨by simp, fun _ => by simp⟩
    · rw [convertClick_ok s env s2 tr hcin]
      intro habs
      simp at habs
  · by_cases hp : jsTrim s.prompt = ""
    · rw [askClick_emptyPrompt s env hp]
      intro _
      exact ⟨by simp, fun _ => by simp⟩
    · rcases hcin : convertIfNeeded false
          (setStatus (setBusy s true) "Preparing readable model data..." false) env with ⟨r, tr⟩
      rcases r with e | s2
      · rw [askClick_convertError s env e tr hp hcin]
        intro _
        exact ⟨by simp, fun _ => by simp⟩
      · have hframe := convertIfNeeded_ok_frame false
          (setStatus (setBusy s true) "Preparing readable model data..." false) env s2 tr hcin
        rw [askClick_convertOk s env s2 tr hp hcin]
        rcases hq : postJson env.askResp with e | d
        · intro _
          constructor
          · simpa using hframe.1
          · intro hcr
            have h2 := convertIfNeeded_cached_state
              (setStatus (setBusy s true) "Preparing readable model data..." false) env s2 tr
              hcr hcin
            rw [h2.1]
            simp
        · intro habs
          simp at habs
  · by_cases hp : jsTrim s.prompt = ""
    · rw [workflowClick_emptyPrompt s env hp]
      intro _
      exact ⟨by simp, fun _ => by simp⟩
    · rcases hcin : convertIfNeeded false
          (setStatus (setBusy s true) "Preparing readable model data..." false) env with ⟨r, tr⟩
      rcases r with e | s2
      · rw [workflowClick_convertError s env e tr hp hcin]
        intro _
        exact ⟨by simp, fun _ => by simp⟩
      · have hframe := convertIfNeeded_ok_frame false
          (setStatus (setBusy s true) "Preparing readable model data..." false) env s2 tr hcin
        rw [workflowClick_convertOk s env s2 tr hp hcin]
        rcases hq : postJson env.workflowResp with e | d
        · intro _
          constructor
          · simpa using hframe.1
          · intro hcr
            have h2 := convertIfNeeded_cached_state
              (setStatus (setBusy s true) "Preparing readable model data..." false) env s2 tr
              hcr hcin
            rw [h2.1]
            simp
        · intro habs
          simp at habs

/-- State for the C6 witness: cached readable text, a stored answer, a
prompt, but no selected file, so Ask fails with a validation error. -/
def c6State : DomState :=
  { prompt := "p", readable := "CACHED", response := "OLD-ANSWER" }

/-- C6 witness: the failing Ask leaves the cached readable text and the
stored answer unchanged. -/
theorem C6_failure_preserves_witness :
    (askClick c6State {}).1.response = c6State.response
  ∧ (askClick c6State {}).1.readable = c6State.readable :=
  ⟨((C6_failure_preserves_state c6State {}).2.1 (by decide)).1,
   ((C6_failure_preserves_state c6State {}).2.1 (by decide)).2 (by decide)⟩

-- Claim C7

/-- C7: every invocation of Convert, Ask, or RunWorkflow started from the
Idle state (all three trigger buttons enabled) ends with all three buttons
enabled again, whether the operation succeeds or fails; exception freedom
is reflected in the handlers being total state transformers - every thrown
failure is consumed inside the handler itself. -/
theorem C7_busy_always_released (s : DomState) (env : Env)
    (h : allEnabled s = true) :
    allEnabled (convertClick s env).1 = true
  ∧ allEnabled (askClick s env).1 = true
  ∧ allEnabled (workflowClick s env).1 = true := by
  refine ⟨?_, ?_, ?_⟩
  · rcases hcin : convertIfNeeded true
        (setStatus (setBusy s true) "Converting .slx file..." false) env with ⟨r, tr⟩
    rcases r with e | s2
    · rw [convertClick_error s env e tr hcin]
      simp [allEnabled]
    · rw [convertClick_ok s env s2 tr hcin]
      simp [allEnabled]
  · by_cases hp : jsTrim s.prompt = ""
    · rw [askClick_emptyPrompt s env hp]
      simpa [allEnabled] using h
    · rcases hcin : convertIfNeeded false
          (setStatus (setBusy s true) "Preparing readable model data..." false) env with ⟨r, tr⟩
      rcases r with e | s2
      · rw [askClick_convertError s env e tr hp hcin]
        simp [allEnabled]
      · rw [askClick_convertOk s env s2 tr hp hcin]
        rcases hq : postJson env.askResp with e | d <;> simp [allEnabled]
  · by_cases hp : jsTrim s.prompt = ""
    · rw [workflowClick_emptyPrompt s env hp]
      simpa [allEnabled] using h
    · rcases hcin : convertIfNeeded false
          (setStatus (setBusy s true) "Preparing readable model data..." false) env with ⟨r, tr⟩
      rcases r with e | s2
      · rw [workflowClick_convertError s env e tr hp hcin]
        simp [allEnabled]
      · rw [workflowClick_convertOk s env s2 tr hp hcin]
        rcases hq : postJson env.workflowResp with e | d <;> simp [allEnabled]

/-- State for the C7 witness. -/
def c7State : DomState := { files := [⟨"m.slx"⟩], prompt := "p" }

/-- C7 witness: starting Idle, all three handlers (here run against an
all-failing server environment) end with every button enabled again. -/
theorem C7_busy_always_released_witness :
    allEnabled (convertClick c7State {}).1 = true
  ∧ allEnabled (askClick c7State {}).1 = true
  ∧ allEnabled (workflowClick c7State {}).1 = true :=
  C7_busy_always_released c7State {} (by decide)

-- Claim C8

/-- State for the C8 counterexample: valid file, prompt, cached readable
text, empty matlab command and timeout fields. -/
def c8State : DomState :=
  { files := [⟨"m.slx"⟩], prompt := "do it", readable := "CACHED" }

/-- Environment for the C8 counterexample: the workflow succeeds with
matlab status "success" and a PRESENT BUT EMPTY run_id. -/
def c8Env : Env :=
  { workflowResp := ⟨200, some { ok := true, generated_script := some "G",
                                 report := some "REP",
                                 matlab := some { status := some "success",
                                                  run_id := some "" } }⟩ }

/-- C8 counterexample: a workflow response whose matlab.run_id field is
present but empty displays the placeholder "n/a" instead of the (empty)
run identifier, refuting the claim that the identifier is shown whenever
it is present. -/
theorem C8_empty_run_id_counterexample :
    (matlabOf (respData c8Env.workflowResp)).run_id = some ""
  ∧ (workflowClick c8State c8Env).1.statusMsg = "Workflow completed. Run ID: n/a"
  ∧ "Workflow completed. Run ID: n/a" ≠ "Workflow completed. Run ID: " := by
  refine ⟨rfl, by decide, by decide⟩

/-- C8, amended: a RunWorkflow request carries matlab_cmd "matlab" and
timeout_sec 300 when the corresponding fields are empty; on success the
returned generated script and report are stored, the displayed status says
"completed" exactly when the returned matlab.status equals "success" and
"failed" otherwise, and the run identifier is shown when present and
non-empty, with the placeholder "n/a" shown when it is absent or empty. -/
theorem C8_workflow_request_and_status (s : DomState) (env : Env)
    (hp : jsTrim s.prompt ≠ "") (hf : fileSelectedSlx s = true)
    (hc : jsTrim s.readable ≠ "") (hok : postFails env.workflowResp = false) :
    (jsTrim s.matlabCmd = "" → s.timeoutSec = "" →
       (workflowClick s env).2 =
         [NetEvent.workflow (jsTrim s.prompt) (jsTrim s.readable)
            (currentModelConfig s) "matlab" (some 300)])
  ∧ (workflowClick s env).1.generatedScript =
      jsOrStr (respData env.workflowResp).generated_script ""
  ∧ (workflowClick s env).1.response = jsOrStr (respData env.workflowResp).report ""
  ∧ ((matlabOf (respData env.workflowResp)).status = some "success" →
       (workflowClick s env).1.statusMsg =
         "Workflow completed. Run ID: " ++
           jsOrStr (matlabOf (respData env.workflowResp)).run_id "n/a")
  ∧ ((matlabOf (respData env.workflowResp)).status ≠ some "success" →
       (workflowClick s env).1.statusMsg =
         "Workflow failed. Run ID: " ++
           jsOrStr (matlabOf (respData env.workflowResp)).run_id "n/a")
  ∧ (∀ rid, (matlabOf (respData env.workflowResp)).run_id = some rid → rid ≠ "" →
       jsOrStr (matlabOf (respData env.workflowResp)).run_id "n/a" = rid)
  ∧ (((matlabOf (respData env.workflowResp)).run_id = none ∨
      (matlabOf (respData env.workflowResp)).run_id = some "") →
       jsOrStr (matlabOf (respData env.workflowResp)).run_id "n/a" = "n/a") := by
  have hcached := convertIfNeeded_cached
    (setStatus (setBusy s true) "Preparing readable model data..." false) env hf hc
  rw [workflowClick_convertOk s env _ _ hp hcached,
      postJson_of_succeeds env.workflowResp hok]
  refine ⟨?_, ?_, ?_, ?_, ?_, ?_, ?_⟩
  · intro hm ht
    simp [hm, ht, jsOrS]
  · simp
  · simp
  · intro hst
    simp only [setBusy_statusMsg, setStatus_statusMsg]
    rw [if_pos hst]
    rfl
  · intro hst
    simp only [setBusy_statusMsg, setStatus_statusMsg]
    rw [if_neg hst]
    rfl
  · intro rid hrid hne
    rw [hrid]
    simp [jsOrStr, jsOrS, hne]
  · intro hrid
    rcases hrid with h1 | h1 <;> rw [h1] <;> simp [jsOrStr, jsOrS]

/-- State for the C8 witness. -/
def c8wState : DomState :=
  { files := [⟨"m.slx"⟩], prompt := "do it", readable := "CACHED" }

/-- Environment for the C8 witness: the workflow succeeds but the matlab
run status is "failure" and the run identifier is "run-42". -/
def c8wEnv : Env :=
  { workflowResp := ⟨200, some { ok := true, generated_script := some "G",
                                 report := some "REP",
                                 matlab := some { status := some "failure",
                                                  run_id := some "run-42" } }⟩ }

/-- C8 witness: with empty matlab command and timeout fields the request
carries the defaults "matlab" and 300, and a run whose status is not
"success" is displayed as failed with its run identifier. -/
theorem C8_workflow_witness :
    (workflowClick c8wState c8wEnv).2 =
      [NetEvent.workflow (jsTrim c8wState.prompt) (jsTrim c8wState.readable)
         (currentModelConfig c8wState) "matlab" (some 300)]
  ∧ (workflowClick c8wState c8wEnv).1.statusMsg =
      "Workflow failed. Run ID: " ++
        jsOrStr (matlabOf (respData c8wEnv.workflowResp)).run_id "n/a" :=
  ⟨(C8_workflow_request_and_status c8wState c8wEnv (by decide) (by decide)
      (by decide) (by decide)).1 (by decide) (by decide),
   (C8_workflow_request_and_status c8wState c8wEnv (by decide) (by decide)
      (by decide) (by decide)).2.2.2.2.1 (by decide)⟩

-- Claim C9

theorem askClick_no_convert (s : DomState) (env : Env)
    (hc : jsTrim s.readable ≠ "") :
    (askClick s env).2.filter isConvertEv = [] := by
  by_cases hp : jsTrim s.prompt = ""
  · rw [askClick_emptyPrompt s env hp]
    simp
  · by_cases hf : fileSelectedSlx s = true
    · have hcached := convertIfNeeded_cached
        (setStatus (setBusy s true) "Preparing readable model data..." false) env hf hc
      rw [askClick_convertOk s env _ _ hp hcached]
      rcases hq : postJson env.askResp with e | d <;> simp [isConvertEv]
    · rw [Bool.not_eq_true] at hf
      obtain ⟨e, hcin⟩ := convertIfNeeded_invalid false
        (setStatus (setBusy s true) "Preparing readable model data..." false) env hf
      rw [askClick_convertError s env e [] hp hcin]
      simp

theorem workflowClick_no_convert (s : DomState) (env : Env)
    (hc : jsTrim s.readable ≠ "") :
    (workflowClick s env).2.filter isConvertEv = [] := by
  by_cases hp : jsTrim s.prompt = ""
  · rw [workflowClick_emptyPrompt s env hp]
    simp
  · by_cases hf : fileSelectedSlx s = true
    · have hcached := convertIfNeeded_cached
        (setStatus (setBusy s true) "Preparing readable model data..." false) env hf hc
      rw [workflowClick_convertOk s env _ _ hp hcached]
      rcases hq : postJson env.workflowResp with e | d <;> simp [isConvertEv]
    · rw [Bool.not_eq_true] at hf
      obtain ⟨e, hcin⟩ := convertIfNeeded_invalid false
        (setStatus (setBusy s true) "Preparing readable model data..." false) env hf
      rw [workflowClick_convertError s env e [] hp hcin]
      simp

/-- State for the C9 counterexample: readable text "OLD" was produced from
the previously selected file a.slx; the prompt is non-empty. -/
def c9State : DomState :=
  { files := [⟨"a.slx"⟩], prompt := "p", readable := "OLD" }

/-- Environment for the C9 counterexample: the ask endpoint accepts. -/
def c9Env : Env := { askResp := ⟨200, some { ok := true, answer := some "A" }⟩ }

/-- C9 counterexample: after the file input changes to b.slx, the cached
readable text is NOT invalidated: a subsequent Ask issues no /api/convert
call and sends the stale readable text "OLD" produced from the previously
selected file, refuting the claim that a file change forces reconversion. -/
theorem C9_stale_cache_counterexample :
    (fileChange c9State [⟨"b.slx"⟩]).readable = "OLD"
  ∧ (askClick (fileChange c9State [⟨"b.slx"⟩]) c9Env).2.filter isConvertEv = []
  ∧ (askClick (fileChange c9State [⟨"b.slx"⟩]) c9Env).2 =
      [NetEvent.ask "p" "OLD" (currentModelConfig c9State)] := by
  refine ⟨rfl, by decide, by decide⟩

/-- C9, amended: the file-input change event does not invalidate the
conversion cache: it leaves the readable text unchanged, and a subsequent
Ask or RunWorkflow that finds a non-empty cached readable text reuses it
and issues no /api/convert call; after a file change, reconversion happens
only when the cache is empty or through the explicit forced Convert
action. -/
theorem C9_file_change_no_invalidation (s : DomState) (fs : List SelFile) (env : Env) :
    (fileChange s fs).readable = s.readable
  ∧ (jsTrim s.readable ≠ "" →
       (askClick (fileChange s fs) env).2.filter isConvertEv = []
       ∧ (workflowClick (fileChange s fs) env).2.filter isConvertEv = []) := by
  have hread : (fileChange s fs).readable = s.readable := by
    unfold fileChange
    rcases hh : fs.head? with _ | f <;> simp
  refine ⟨hread, fun hc => ⟨?_, ?_⟩⟩
  · exact askClick_no_convert (fileChange s fs) env (by rw [hread]; exact hc)
  · exact workflowClick_no_convert (fileChange s fs) env (by rw [hread]; exact hc)

/-- State for the C9 witness. -/
def c9wState : DomState := { files := [⟨"a.slx"⟩], prompt := "q", readable := "KEEP" }

/-- C9 witness: a concrete file change preserves the cached text and the
following Ask and RunWorkflow issue no convert call. -/
theorem C9_file_change_witness :
    (fileChange c9wState [⟨"b.slx"⟩]).readable = c9wState.readable
  ∧ (askClick (fileChange c9wState [⟨"b.slx"⟩]) {}).2.filter isConvertEv = []
  ∧ (workflowClick (fileChange c9wState [⟨"b.slx"⟩]) {}).2.filter isConvertEv = [] :=
  ⟨(C9_file_change_no_invalidation c9wState [⟨"b.slx"⟩] {}).1,
   ((C9_file_change_no_invalidation c9wState [⟨"b.slx"⟩] {}).2 (by decide)).1,
   ((C9_file_change_no_invalidation c9wState [⟨"b.slx"⟩] {}).2 (by decide)).2⟩

end SDPGui
